import Mathlib

/-!
Verification of the graphrag query engine (`src/main.py`) against its
natural-language specification.

The pipeline in `query_engine` (main.py lines 126-267) is embedded as a pure
function.  External collaborators are parameters:
  * the embedding service is a function from the forwarded query value to an
    `EmbedOutcome` (network error, or a response with a status and an optional
    numeric-list embedding field);
  * the entity store is a list of `Row`s (id, type, properties JSON, embedding
    column);
  * the text-generation collaborator is a total function `String → String`
    (a deterministic oracle; the model counts its invocations);
  * the floating-point similarity routine is a parameter
    `score : List ℚ → List ℚ → ℚ` (every IEEE float is a rational, so the
    score array computed by the code is faithfully a list of rationals).
Machine floats appearing as data (embeddings, scores) are modelled as ℚ;
the idealised cosine-similarity mathematics (sklearn's normalize-then-dot)
is modelled separately over ℝ, where the square root lives.
-/

/-- JSON values, as produced by Flask's `request.get_json` and by
`json.loads`.  Python dicts preserve insertion order, hence association
lists for objects. -/
inductive JVal where
  | null : JVal
  | bool (b : Bool) : JVal
  | num (q : ℚ) : JVal
  | str (s : String) : JVal
  | arr (xs : List JVal) : JVal
  | obj (kvs : List (String × JVal)) : JVal

/-- Python truthiness (`if not x`) for JSON-shaped values: `None`, `False`,
`0`, `""`, `[]`, `{}` are falsy, everything else truthy. -/
def JVal.truthy : JVal → Bool
  | .null => false
  | .bool b => b
  | .num q => !(q == 0)
  | .str s => !(s == "")
  | .arr xs => !xs.isEmpty
  | .obj kvs => !kvs.isEmpty

/-- Python's `k in v` membership test: key lookup for dicts, element
equality for lists, substring test for strings, `TypeError` (modelled as
`Except.error`) for scalars. -/
def pyContains (v : JVal) (k : String) : Except Unit Bool :=
  match v with
  | .obj kvs => .ok (kvs.any (fun kv => kv.1 == k))
  | .arr xs =>
    -- element-wise `==` against the string `k`; a Python `==` between a
    -- non-string element and a string is `False`
    .ok (xs.any (fun x => match x with | .str t => t == k | _ => false))
  | .str s => .ok (decide (2 ≤ (s.splitOn k).length))
  | _ => .error ()

/-- Python's `v[k]` with a string key: first matching key of a dict
(`KeyError` when absent), `TypeError` on every non-dict. -/
def pyGetItem (v : JVal) (k : String) : Except Unit JVal :=
  match v with
  | .obj kvs =>
    match kvs.find? (fun kv => kv.1 == k) with
    | some kv => .ok kv.2
    | none => .error ()
  | _ => .error ()

/-- Python's `dict.get(k, d)`: the stored value when the key is present
(even if falsy), the default otherwise. -/
def dictGet (kvs : List (String × JVal)) (k : String) (d : JVal) : JVal :=
  match kvs.find? (fun kv => kv.1 == k) with
  | some kv => kv.2
  | none => d

/-- Escapes backslash and double quote in a character list. -/
def jsonEscapeChars : List Char → String
  | [] => ""
  | c :: cs =>
    (if c = '\\' then "\\\\"
     else if c = '"' then "\\\"" else String.singleton c) ++ jsonEscapeChars cs

/-- Escapes backslash and double quote as `json.dumps` does (escapes of
control characters are elided; no claim depends on them). -/
def jsonEscape (s : String) : String :=
  jsonEscapeChars s.data

mutual

/-- Python's `json.dumps` with its default separators `", "` and `": "`. -/
def jsonDumps : JVal → String
  | .null => "null"
  | .bool true => "true"
  | .bool false => "false"
  | .num q => toString q
  | .str s => "\"" ++ jsonEscape s ++ "\""
  | .arr xs => "[" ++ jsonDumpsArr xs ++ "]"
  | .obj kvs => "\x7b" ++ jsonDumpsObj kvs ++ "\x7d"

def jsonDumpsArr : List JVal → String
  | [] => ""
  | [x] => jsonDumps x
  | x :: y :: xs => jsonDumps x ++ ", " ++ jsonDumpsArr (y :: xs)

def jsonDumpsObj : List (String × JVal) → String
  | [] => ""
  | [kv] => "\"" ++ jsonEscape kv.1 ++ "\": " ++ jsonDumps kv.2
  | kv :: kv2 :: kvs =>
    "\"" ++ jsonEscape kv.1 ++ "\": " ++ jsonDumps kv.2 ++ ", " ++
      jsonDumpsObj (kv2 :: kvs)

end

mutual

/-- Python's `repr` on JSON-shaped values (single-quoted strings,
`True` / `False` / `None`), used by `str.format` for non-string fields. -/
def pyRepr : JVal → String
  | .null => "None"
  | .bool true => "True"
  | .bool false => "False"
  | .num q => toString q
  | .str s => "'" ++ s ++ "'"
  | .arr xs => "[" ++ pyReprArr xs ++ "]"
  | .obj kvs => "\x7b" ++ pyReprObj kvs ++ "\x7d"

def pyReprArr : List JVal → String
  | [] => ""
  | [x] => pyRepr x
  | x :: y :: xs => pyRepr x ++ ", " ++ pyReprArr (y :: xs)

def pyReprObj : List (String × JVal) → String
  | [] => ""
  | [kv] => "'" ++ kv.1 ++ "': " ++ pyRepr kv.2
  | kv :: kv2 :: kvs =>
    "'" ++ kv.1 ++ "': " ++ pyRepr kv.2 ++ ", " ++ pyReprObj (kv2 :: kvs)

end

/-- Python's `str` on JSON-shaped values, as interpolated by
`PromptTemplate.format`. -/
def pyStr : JVal → String
  | .str s => s
  | v => pyRepr v

/-- One row returned by the Spanner query (main.py lines 157-176):
id, type, the `Properties` JSON column (`none` models SQL NULL / empty,
which line 181 replaces with `{}`), and the `Embedding` array column. -/
structure Row where
  id : String
  type : String
  props : Option (List (String × JVal))
  emb : Option (List ℚ)

/-- One entry of `all_entities_data` (main.py lines 177-189). -/
structure Entity where
  id : String
  type : String
  props : List (String × JVal)
  embedding : Option (List ℚ)

/-- Main.py lines 178-189: `json.loads(row[2]) if row[2] else {}` and
`list(row[3]) if row[3] else None` — an empty (falsy) embedding array
becomes `None`. -/
def rowToEntity (r : Row) : Entity :=
  { id := r.id
    type := r.type
    props := r.props.getD []
    embedding :=
      match r.emb with
      | some l => if l.isEmpty then none else some l
      | none => none }

/-- The filter condition of main.py line 200:
`entity.get("embedding") and isinstance(entity["embedding"], list)` —
truthiness (non-`None` and non-empty) of the embedding; the `isinstance`
conjunct is always true for values built by lines 178-189. -/
def hasUsableEmbedding (e : Entity) : Bool :=
  match e.embedding with
  | some l => !l.isEmpty
  | none => false

/-- `valid_entities` (main.py lines 198-203). -/
def valid_entities (rows : List Row) : List Entity :=
  (rows.map rowToEntity).filter hasUsableEmbedding

/-- Embedding length of an entity (0 when absent); the dimensionality
check `sklearn` performs before computing cosine similarities. -/
def embDim (e : Entity) : Nat :=
  (e.embedding.getD []).length

/-- The ordering numpy's stable ascending `argsort` realises on index
pairs: smaller score first, equal scores in index order. -/
def keyLE (s : List ℚ) (i j : Nat) : Bool :=
  decide (s.getD i 0 < s.getD j 0) ||
    (decide (s.getD i 0 = s.getD j 0) && decide (i ≤ j))

/-- Insertion of an index into an index list sorted by `keyLE`. -/
def insertIdx (s : List ℚ) (i : Nat) : List Nat → List Nat
  | [] => [i]
  | j :: js => if keyLE s i j then i :: j :: js else j :: insertIdx s i js

/-- Insertion sort of an index list by `keyLE`. -/
def isortIdx (s : List ℚ) : List Nat → List Nat
  | [] => []
  | i :: is => insertIdx s i (isortIdx s is)

/-- One possible outcome of `similarities.argsort()` (main.py line 218).
numpy's default kind is an unstable introsort whose only guarantee is the
sorting contract — the result is a permutation of `range n` along which the
scores ascend; the order of exactly tied indices is unspecified in general.
For arrays below numpy's insertion-sort threshold (16 elements) the default
sort is an insertion sort, i.e. exactly this stable ascending argsort
(ties in index order).  `argsortAsc` is that small-array behaviour; the C1
theorem quantifies over every index list satisfying the contract, so its
conclusions cover every outcome the unstable sort may produce. -/
def argsortAsc (s : List ℚ) : List Nat :=
  isortIdx s (List.range s.length)

/-- `top_n` (main.py line 217). -/
def top_n : Nat := 5

/-- `idx[-top_n:][::-1]` (main.py line 218) applied to an argsort result:
the last `min 5 n` entries, reversed — equivalently the first five entries
of the reverse. -/
def topFromArgsort (idx : List Nat) : List Nat :=
  (idx.reverse).take top_n

/-- `similarities.argsort()[-top_n:][::-1]` (main.py line 218), with the
argsort in its small-array (stable) regime. -/
def top_n_indices (s : List ℚ) : List Nat :=
  topFromArgsort (argsortAsc s)

/-- The outcome of the POST to the embedding service inside
`get_query_embedding`: a transport-level failure
(`requests.exceptions.RequestException`, which also covers what
`raise_for_status` raises), or a response with an HTTP status and the
parsed `embedding` field (`none` models an absent or non-list field; a
present numeric list is `some l`). -/
inductive EmbedOutcome where
  | netError : EmbedOutcome
  | response (status : Nat) (embedding : Option (List ℚ)) : EmbedOutcome

/-- `get_query_embedding` (main.py lines 34-66): `none` when the URL env
var is unset, on transport error, on non-200 status, and when the
`embedding` field is absent, not a list, or empty; the embedding list
otherwise. -/
def get_query_embedding (urlSet : Bool) (out : EmbedOutcome) :
    Option (List ℚ) :=
  if !urlSet then none
  else
    match out with
    | .netError => none
    | .response status emb =>
      if status = 200 then
        match emb with
        | some l => if l.isEmpty then none else some l
        | none => none
      else none

/-- The failure modes of the embedding collaborator enumerated by the
spec: error status, request exception, or empty/malformed embedding
field in the response. -/
def embedFails : EmbedOutcome → Prop
  | .netError => True
  | .response status emb => status ≠ 200 ∨ emb = none ∨ emb = some []

/-- Summary resolution for one entity (main.py lines 231-244): the
type-directed extraction with `json.dumps(properties)` fallback whenever
the extracted value is falsy. -/
def resolve_summary (etype : String) (props : List (String × JVal)) : JVal :=
  if etype = "Community" ∨ etype = "Class" then
    let s := dictGet props "summary" (.str "")
    if s.truthy then s else .str (jsonDumps (.obj props))
  else if etype = "Instance" then
    let s := dictGet props "name" (dictGet props "description" (.str ""))
    if s.truthy then s else .str (jsonDumps (.obj props))
  else .str (jsonDumps (.obj props))

/-- `PARTIAL_ANSWER_PROMPT.format(query=..., summary=...)`
(main.py lines 99-110, 250). -/
def answerPrompt (query summary : String) : String :=
  "\n    Given the following query and summary, please provide a partial answer to the query based on the summary.\n\n    Query: " ++
    query ++ "\n\n    Summary: " ++ summary ++ "\n\n    Partial Answer:\n    "

/-- `FINAL_ANSWER_PROMPT.format(query=..., partial_answers=...)`
(main.py lines 112-124, 260). -/
def finalPrompt (query answers : String) : String :=
  "\n    Given the following query and partial answers, please provide a final global answer.\n\n    Query: " ++
    query ++ "\n\n    Partial Answers:\n    " ++ answers ++
    "\n\n    Final Answer:\n    "

/-- The per-entity generation loop (main.py lines 225-252): resolve a
summary, skip the entity when the summary is falsy (`continue`,
line 248), otherwise invoke the generation collaborator once and collect
its answer. -/
def answersLoop (llm : String → String) (query : JVal) :
    List Entity → List String
  | [] => []
  | e :: es =>
    let s := resolve_summary e.type e.props
    if s.truthy then
      llm (answerPrompt (pyStr query) (pyStr s)) :: answersLoop llm query es
    else answersLoop llm query es

/-- HTTP response bodies (`jsonify` arguments). -/
def errBody (s : String) : JVal := .obj [("error", .str s)]

/-- A `message` response body. -/
def msgBody (s : String) : JVal := .obj [("message", .str s)]

/-- The exact string of main.py line 137. -/
def badRequestMsg : String := "Bad Request: Invalid JSON or missing query"

/-- The exact string of main.py line 257, trailing newline included. -/
def noAnswersMsg : String :=
  "No relevant information found to answer your query.\n"

/-- The synthesis stage (main.py lines 254-263): body, HTTP status, and
number of synthesis generation calls.  An empty answer list returns the
line-257 message with no generation call; otherwise the answers are
joined with newlines and the collaborator is invoked once. -/
def finalStage (llm : String → String) (query : JVal)
    (answers : List String) : JVal × Nat × Nat :=
  match answers with
  | [] => (msgBody noAnswersMsg, 200, 0)
  | ps =>
    (.obj [("answer",
        .str (llm (finalPrompt (pyStr query) (String.intercalate "\n" ps))))],
      200, 1)

/-- Observable outcome of one request: HTTP status, JSON body, number of
embedding-service calls, the value forwarded to the embedding service,
number of storage fetches, and number of generation calls. -/
structure Trace where
  status : Nat
  body : JVal
  embedCalls : Nat
  embedArg : Option JVal
  fetchCalls : Nat
  genCalls : Nat

/-- `query_engine` (main.py lines 126-267) as a pure function of the
request body (`none` = missing/unparsable JSON, exactly what
`get_json(silent=True)` turns into `None`) and the collaborator
parameters.  A Python exception caught by the line-265 handler is the
500 "Internal Server Error" trace. -/
def query_engine (urlSet : Bool) (embedSvc : JVal → EmbedOutcome)
    (rows : List Row) (score : List ℚ → List ℚ → ℚ)
    (llm : String → String) (body : Option JVal) : Trace :=
  match body with
  | none => ⟨400, errBody badRequestMsg, 0, none, 0, 0⟩
  | some rj =>
    if rj.truthy then
      match pyContains rj "query" with
      | .error _ => ⟨500, errBody "Internal Server Error", 0, none, 0, 0⟩
      | .ok false => ⟨400, errBody badRequestMsg, 0, none, 0, 0⟩
      | .ok true =>
        match pyGetItem rj "query" with
        | .error _ => ⟨500, errBody "Internal Server Error", 0, none, 0, 0⟩
        | .ok query =>
          match get_query_embedding urlSet (embedSvc query) with
          | none =>
            ⟨500, errBody "Failed to generate query embedding", 1,
              some query, 0, 0⟩
          | some qe =>
            let valid := valid_entities rows
            if valid.isEmpty then
              ⟨200, msgBody "No relevant information found.", 1, some query,
                1, 0⟩
            else if valid.all (fun e => embDim e == qe.length) then
              let scores := valid.map (fun e => score qe (e.embedding.getD []))
              let tops := (top_n_indices scores).filterMap (fun i => valid[i]?)
              let answers := answersLoop llm query tops
              let fs := finalStage llm query answers
              ⟨fs.2.1, fs.1, 1, some query, 1, answers.length + fs.2.2⟩
            else
              -- sklearn's cosine_similarity raises on any dimensionality
              -- mismatch between the query vector and an entity embedding;
              -- the exception reaches the line-265 handler.
              ⟨500, errBody "Internal Server Error", 1, some query, 1, 0⟩
    else ⟨400, errBody badRequestMsg, 0, none, 0, 0⟩

/-- Dot product of real vectors (`np.dot` on equal-length float arrays,
idealised over ℝ). -/
def dotR : List ℝ → List ℝ → ℝ
  | a :: as, b :: bs => a * b + dotR as bs
  | _, _ => 0

/-- Euclidean norm. -/
noncomputable def l2norm (v : List ℝ) : ℝ := Real.sqrt (dotR v v)

/-- sklearn's `cosine_similarity` on a pair of vectors: each vector is
divided by its norm — with a zero norm replaced by 1, which is exactly
`sklearn.preprocessing.normalize`'s zero-row policy — and the results
are dotted, i.e. `dot q v / (N q * N v)` with `N x = if ‖x‖ = 0 then 1
else ‖x‖`. -/
noncomputable def cosine_similarity (q v : List ℝ) : ℝ :=
  dotR q v /
    ((if l2norm q = 0 then 1 else l2norm q) *
      (if l2norm v = 0 then 1 else l2norm v))

/-! ### Properties of the stable argsort -/

theorem keyLE_total (s : List ℚ) (i j : Nat) (h : keyLE s i j = false) :
    keyLE s j i = true := by
  simp only [keyLE, Bool.or_eq_false_iff, Bool.and_eq_false_iff,
    decide_eq_false_iff_not, Bool.or_eq_true, Bool.and_eq_true,
    decide_eq_true_eq] at h ⊢
  obtain ⟨h1, h2⟩ := h
  by_cases hab : s.getD i 0 = s.getD j 0
  · rcases h2 with h2 | h2
    · exact absurd hab h2
    · exact Or.inr ⟨hab.symm, by omega⟩
  · exact Or.inl (lt_of_le_of_ne (not_lt.mp h1) fun e => hab e.symm)

theorem keyLE_trans (s : List ℚ) {i j k : Nat} (h1 : keyLE s i j = true)
    (h2 : keyLE s j k = true) : keyLE s i k = true := by
  simp only [keyLE, Bool.or_eq_true, Bool.and_eq_true, decide_eq_true_eq]
    at h1 h2 ⊢
  rcases h1 with h1 | ⟨e1, l1⟩ <;> rcases h2 with h2 | ⟨e2, l2⟩
  · exact Or.inl (h1.trans h2)
  · exact Or.inl (by rw [← e2]; exact h1)
  · exact Or.inl (by rw [e1]; exact h2)
  · exact Or.inr ⟨e1.trans e2, l1.trans l2⟩

theorem insertIdx_perm (s : List ℚ) (i : Nat) (l : List Nat) :
    (insertIdx s i l).Perm (i :: l) := by
  induction l with
  | nil => simp [insertIdx]
  | cons j js ih =>
    cases hc : keyLE s i j with
    | true => simp [insertIdx, hc]
    | false =>
      simp only [insertIdx, hc, Bool.false_eq_true, if_false]
      exact (ih.cons j).trans (List.Perm.swap i j js)

theorem isortIdx_perm (s : List ℚ) (l : List Nat) :
    (isortIdx s l).Perm l := by
  induction l with
  | nil => simp [isortIdx]
  | cons i is ih => exact (insertIdx_perm s i _).trans (ih.cons i)

theorem mem_insertIdx (s : List ℚ) (i b : Nat) (l : List Nat) :
    b ∈ insertIdx s i l ↔ b = i ∨ b ∈ l := by
  rw [(insertIdx_perm s i l).mem_iff, List.mem_cons]

theorem pairwise_insertIdx (s : List ℚ) (i : Nat) (l : List Nat)
    (h : l.Pairwise (fun a b => keyLE s a b = true)) :
    (insertIdx s i l).Pairwise (fun a b => keyLE s a b = true) := by
  induction l with
  | nil => simp [insertIdx]
  | cons j js ih =>
    obtain ⟨hj, hjs⟩ := List.pairwise_cons.mp h
    cases hc : keyLE s i j with
    | true =>
      simp only [insertIdx, hc, if_true]
      refine List.pairwise_cons.mpr ⟨?_, h⟩
      intro b hb
      rcases List.mem_cons.mp hb with rfl | hb
      · exact hc
      · exact keyLE_trans s hc (hj b hb)
    | false =>
      simp only [insertIdx, hc, Bool.false_eq_true, if_false]
      refine List.pairwise_cons.mpr ⟨?_, ih hjs⟩
      intro b hb
      rcases (mem_insertIdx s i b js).mp hb with rfl | hb
      · exact keyLE_total s _ j hc
      · exact hj b hb

theorem pairwise_isortIdx (s : List ℚ) (l : List Nat) :
    (isortIdx s l).Pairwise (fun a b => keyLE s a b = true) := by
  induction l with
  | nil => simp [isortIdx]
  | cons i is ih => exact pairwise_insertIdx s i _ ih

theorem argsortAsc_perm (s : List ℚ) :
    (argsortAsc s).Perm (List.range s.length) :=
  isortIdx_perm s (List.range s.length)

theorem length_argsortAsc (s : List ℚ) :
    (argsortAsc s).length = s.length := by
  rw [(argsortAsc_perm s).length_eq, List.length_range]

theorem mem_argsortAsc (s : List ℚ) (i : Nat) :
    i ∈ argsortAsc s ↔ i < s.length := by
  rw [(argsortAsc_perm s).mem_iff, List.mem_range]

theorem length_top_n_indices (s : List ℚ) :
    (top_n_indices s).length = min 5 s.length := by
  simp [top_n_indices, topFromArgsort, top_n, List.length_take,
    List.length_reverse, length_argsortAsc]

theorem mem_top_n_indices_lt (s : List ℚ) (i : Nat)
    (h : i ∈ top_n_indices s) : i < s.length := by
  have h1 : i ∈ (argsortAsc s).reverse := List.mem_of_mem_take h
  exact (mem_argsortAsc s i).mp (List.mem_reverse.mp h1)

theorem argsortAsc_sorted_le (s : List ℚ) :
    (argsortAsc s).Pairwise (fun i j => s.getD i 0 ≤ s.getD j 0) := by
  refine (pairwise_isortIdx s _).imp ?_
  intro i j hk
  simp only [keyLE, Bool.or_eq_true, Bool.and_eq_true,
    decide_eq_true_eq] at hk
  rcases hk with hk | ⟨he, _⟩
  · exact hk.le
  · exact he.le

theorem argsort_contract_length {n : Nat} (idx : List Nat)
    (hperm : idx.Perm (List.range n)) :
    (topFromArgsort idx).length = min 5 n := by
  simp [topFromArgsort, top_n, List.length_take, List.length_reverse,
    hperm.length_eq, List.length_range]

theorem argsort_contract_sorted (s : List ℚ) (idx : List Nat)
    (hsorted : idx.Pairwise (fun i j => s.getD i 0 ≤ s.getD j 0)) :
    (topFromArgsort idx).Pairwise (fun i j => s.getD j 0 ≤ s.getD i 0) := by
  have h1 : (idx.reverse).Pairwise (fun i j => s.getD j 0 ≤ s.getD i 0) :=
    List.pairwise_reverse.mpr hsorted
  exact h1.sublist (List.take_sublist top_n _)

theorem argsort_contract_topness (s : List ℚ) (idx : List Nat)
    (hperm : idx.Perm (List.range s.length))
    (hsorted : idx.Pairwise (fun i j => s.getD i 0 ≤ s.getD j 0))
    (j : Nat) (hj : j < s.length) (hnot : j ∉ topFromArgsort idx)
    (i : Nat) (hi : i ∈ topFromArgsort idx) :
    s.getD j 0 ≤ s.getD i 0 := by
  have hrev : (idx.reverse).Pairwise (fun a b => s.getD b 0 ≤ s.getD a 0) :=
    List.pairwise_reverse.mpr hsorted
  have hsplit := List.take_append_drop top_n idx.reverse
  rw [← hsplit] at hrev
  have hmemj : j ∈ idx.reverse :=
    List.mem_reverse.mpr (hperm.mem_iff.mpr (List.mem_range.mpr hj))
  rw [← hsplit] at hmemj
  rcases List.mem_append.mp hmemj with hjt | hjd
  · exact absurd hjt hnot
  · exact (List.pairwise_append.mp hrev).2.2 i hi j hjd

/-! ### Dot products and Cauchy-Schwarz over lists of reals -/

theorem dotR_self_nonneg (v : List ℝ) : 0 ≤ dotR v v := by
  induction v with
  | nil => simp [dotR]
  | cons a as ih =>
    simp only [dotR]
    exact add_nonneg (mul_self_nonneg a) ih

theorem dotR_comm (q v : List ℝ) : dotR q v = dotR v q := by
  induction q generalizing v with
  | nil => cases v <;> simp [dotR]
  | cons a as ih =>
    cases v with
    | nil => simp [dotR]
    | cons b bs => simp only [dotR, ih bs, mul_comm]

theorem dotR_self_eq_zero (v : List ℝ) (h : dotR v v = 0) (q : List ℝ) :
    dotR q v = 0 := by
  induction v generalizing q with
  | nil => cases q <;> simp [dotR]
  | cons b bs ih =>
    simp only [dotR] at h
    have hbs := dotR_self_nonneg bs
    have hb2 : b * b = 0 := by nlinarith [mul_self_nonneg b]
    have hrest : dotR bs bs = 0 := by nlinarith [mul_self_nonneg b]
    cases q with
    | nil => simp [dotR]
    | cons a as =>
      simp only [dotR, mul_self_eq_zero.mp hb2, mul_zero, ih hrest as,
        add_zero]

theorem dotR_sq_le (q v : List ℝ) :
    (dotR q v) ^ 2 ≤ dotR q q * dotR v v := by
  induction q generalizing v with
  | nil => simp [dotR]
  | cons a as ih =>
    cases v with
    | nil => simp [dotR]
    | cons b bs =>
      have h := ih bs
      have hA := dotR_self_nonneg as
      have hB := dotR_self_nonneg bs
      simp only [dotR]
      rcases eq_or_lt_of_le hB with hB0 | hBpos
      · have hD : dotR as bs = 0 := dotR_self_eq_zero bs hB0.symm as
        rw [hD, ← hB0]
        nlinarith [mul_nonneg hA (mul_self_nonneg b)]
      · nlinarith [sq_nonneg (a * dotR bs bs - b * dotR as bs),
          mul_nonneg hB (sub_nonneg.mpr h),
          mul_nonneg (sq_nonneg b) (sub_nonneg.mpr h)]

theorem l2norm_nonneg (v : List ℝ) : 0 ≤ l2norm v :=
  Real.sqrt_nonneg _

theorem l2norm_eq_zero_iff (v : List ℝ) :
    l2norm v = 0 ↔ dotR v v = 0 := by
  unfold l2norm
  rw [Real.sqrt_eq_zero (dotR_self_nonneg v)]

theorem abs_dotR_le (q v : List ℝ) :
    |dotR q v| ≤ l2norm q * l2norm v := by
  have h := dotR_sq_le q v
  have h1 : |dotR q v| = Real.sqrt ((dotR q v) ^ 2) :=
    (Real.sqrt_sq_eq_abs _).symm
  rw [h1]
  unfold l2norm
  rw [← Real.sqrt_mul (dotR_self_nonneg q)]
  exact Real.sqrt_le_sqrt h

/-! ### Summary resolution facts -/

theorem jsonDumps_obj_ne_empty (kvs : List (String × JVal)) :
    jsonDumps (JVal.obj kvs) ≠ "" := by
  intro h
  have hlen : (jsonDumps (JVal.obj kvs)).length = 0 := by rw [h]; rfl
  have h1 : ("\x7b" : String).length = 1 := rfl
  simp only [jsonDumps, String.length_append, h1] at hlen
  omega

theorem truthy_dumps (kvs : List (String × JVal)) :
    (JVal.str (jsonDumps (JVal.obj kvs))).truthy = true := by
  simp [JVal.truthy, jsonDumps_obj_ne_empty kvs]

theorem resolve_summary_truthy (etype : String)
    (props : List (String × JVal)) :
    (resolve_summary etype props).truthy = true := by
  simp only [resolve_summary]
  split
  · split
    · assumption
    · exact truthy_dumps _
  · split
    · split
      · assumption
      · exact truthy_dumps _
    · exact truthy_dumps _

theorem answersLoop_length (llm : String → String) (query : JVal)
    (tops : List Entity) :
    (answersLoop llm query tops).length = tops.length := by
  induction tops with
  | nil => rfl
  | cons e es ih =>
    simp only [answersLoop, resolve_summary_truthy e.type e.props, if_true,
      List.length_cons, ih]

theorem length_filterMap_get {α : Type} (l : List α) (idx : List Nat)
    (h : ∀ i ∈ idx, i < l.length) :
    (idx.filterMap (fun i => l[i]?)).length = idx.length := by
  induction idx with
  | nil => rfl
  | cons i is ih =>
    have hi : i < l.length := h i (List.mem_cons_self i is)
    rw [List.filterMap_cons, List.getElem?_eq_getElem hi]
    simp only [List.length_cons, ih fun j hj => h j (List.mem_cons_of_mem i hj)]

/-! ### Claim C1 -/

/-- Claim C1 counterexample: the claim asserts that candidates with exactly
equal scores appear in their original retrieval (input) order.  With two
candidates of equal score the ranker (`argsort()[-5:][::-1]`, main.py
line 218) returns index 1 before index 0: at two elements numpy's default
argsort is in its insertion-sort (stable) regime, so the ascending argsort
is `[0, 1]` and the final `[::-1]` emits the tie in reversed input order,
not input order. -/
theorem claim_C1_counterexample :
    top_n_indices [(1 : ℚ), 1] = [1, 0] ∧
      top_n_indices [(1 : ℚ), 1] ≠ [0, 1] := by
  constructor
  · rfl
  · intro h
    have : ([1, 0] : List Nat) = [0, 1] := by
      rw [show ([1, 0] : List Nat) = top_n_indices [(1 : ℚ), 1] from rfl, h]
    simp at this

/-- Claim C1 (amended): for every score list the ranker returns exactly
`min 5 n` entries sorted by descending score, and every candidate left out
scores no higher than every candidate selected — for *every* index order
satisfying numpy's argsort contract (a permutation of `range n` along
which the scores ascend), hence for every outcome its unstable default
sort may produce.  Exact ties do *not* appear in the original retrieval
order: the trailing `[::-1]` reverses the ascending argsort, so in numpy's
small-array regime they come out in reversed input order (the
counterexample); for larger pools the unstable sort leaves the tie order
unspecified.  The first two conjuncts state that `argsortAsc`, the
small-array behaviour used by `top_n_indices`, satisfies the contract. -/
theorem claim_C1_amended (s : List ℚ) :
    (argsortAsc s).Perm (List.range s.length) ∧
    (argsortAsc s).Pairwise (fun i j => s.getD i 0 ≤ s.getD j 0) ∧
    ∀ idx : List Nat, idx.Perm (List.range s.length) →
      idx.Pairwise (fun i j => s.getD i 0 ≤ s.getD j 0) →
      (topFromArgsort idx).length = min 5 s.length ∧
      (topFromArgsort idx).Pairwise (fun i j => s.getD j 0 ≤ s.getD i 0) ∧
      ∀ j, j < s.length → j ∉ topFromArgsort idx →
        ∀ i ∈ topFromArgsort idx, s.getD j 0 ≤ s.getD i 0 := by
  refine ⟨argsortAsc_perm s, argsortAsc_sorted_le s, ?_⟩
  intro idx hperm hsorted
  exact ⟨argsort_contract_length idx hperm,
    argsort_contract_sorted s idx hsorted,
    fun j hj hnot i hi =>
      argsort_contract_topness s idx hperm hsorted j hj hnot i hi⟩

/-- Witness for the amended claim C1: six candidates scored 0,1,2,3,4,5
with the identity argsort (which satisfies the contract); the selection
keeps five entries and the left-out lowest scorer (index 0) scores no
higher than the selected index 5. -/
theorem claim_C1_amended_witness :
    (topFromArgsort [0, 1, 2, 3, 4, 5]).length =
        min 5 ([(0 : ℚ), 1, 2, 3, 4, 5]).length ∧
      ([(0 : ℚ), 1, 2, 3, 4, 5].getD 0 0) ≤
        ([(0 : ℚ), 1, 2, 3, 4, 5].getD 5 0) := by
  have h := (claim_C1_amended [(0 : ℚ), 1, 2, 3, 4, 5]).2.2
    [0, 1, 2, 3, 4, 5] (List.Perm.refl _) (by decide)
  exact ⟨h.1, h.2.2 0 (by decide) (by decide) 5 (by decide)⟩

/-! ### Claim C3 -/

/-- Claim C3: for equal-dimension vectors the similarity score equals
`dot q v / (l2norm q * l2norm v)` and lies in `[-1, 1]` when both norms are
non-zero; a zero norm yields score 0 rather than an error. -/
theorem claim_C3 (q v : List ℝ) (_h : q.length = v.length) :
    (l2norm q ≠ 0 → l2norm v ≠ 0 →
      cosine_similarity q v = dotR q v / (l2norm q * l2norm v) ∧
        -1 ≤ cosine_similarity q v ∧ cosine_similarity q v ≤ 1) ∧
    (l2norm q = 0 ∨ l2norm v = 0 → cosine_similarity q v = 0) := by
  constructor
  · intro hq hv
    have heq : cosine_similarity q v = dotR q v / (l2norm q * l2norm v) := by
      unfold cosine_similarity
      rw [if_neg hq, if_neg hv]
    have hpos : 0 < l2norm q * l2norm v :=
      mul_pos ((l2norm_nonneg q).lt_of_ne (Ne.symm hq))
        ((l2norm_nonneg v).lt_of_ne (Ne.symm hv))
    have h1 : |cosine_similarity q v| ≤ 1 := by
      rw [heq, abs_div, abs_of_pos hpos]
      exact div_le_one_of_le₀ (abs_dotR_le q v) hpos.le
    exact ⟨heq, (abs_le.mp h1).1, (abs_le.mp h1).2⟩
  · intro h0
    have hd : dotR q v = 0 := by
      rcases h0 with h0 | h0
      · rw [dotR_comm]
        exact dotR_self_eq_zero q ((l2norm_eq_zero_iff q).mp h0) v
      · exact dotR_self_eq_zero v ((l2norm_eq_zero_iff v).mp h0) q
    unfold cosine_similarity
    rw [hd, zero_div]

/-- Witness for claim C3 at the concrete pair `q = v = [1]`:
the norms are 1, so the score equals the dot quotient and is bounded. -/
theorem claim_C3_witness :
    cosine_similarity [(1 : ℝ)] [(1 : ℝ)] =
        dotR [(1 : ℝ)] [(1 : ℝ)] / (l2norm [(1 : ℝ)] * l2norm [(1 : ℝ)]) ∧
      -1 ≤ cosine_similarity [(1 : ℝ)] [(1 : ℝ)] ∧
        cosine_similarity [(1 : ℝ)] [(1 : ℝ)] ≤ 1 := by
  have hn : l2norm [(1 : ℝ)] ≠ 0 := by
    have h1 : dotR [(1 : ℝ)] [(1 : ℝ)] = 1 := by norm_num [dotR]
    rw [l2norm, h1, Real.sqrt_one]
    exact one_ne_zero
  exact (claim_C3 [(1 : ℝ)] [(1 : ℝ)] rfl).1 hn hn

/-! ### Pipeline helper lemmas -/

theorem finalStage_status (llm : String → String) (query : JVal)
    (answers : List String) : (finalStage llm query answers).2.1 = 200 := by
  cases answers <;> rfl

/-! ### Claim C2 -/

/-- Claim C2 counterexample: an entity whose embedding has a different
length (2) than the common dimensionality D = 3 is *not* excluded from
similarity ranking — it passes the line-200 filter and stays in the ranked
pool — and the whole request then fails with the 500 internal-error handler
when `cosine_similarity` rejects the mismatched dimensions, so the
well-formed length-3 record loses its eligibility too. -/
theorem claim_C2_counterexample :
    rowToEntity ⟨"b", "Instance", none, some [1, 2]⟩ ∈
      valid_entities [⟨"a", "Instance", none, some [1, 2, 3]⟩,
        ⟨"b", "Instance", none, some [1, 2]⟩] ∧
    (query_engine true (fun _ => EmbedOutcome.response 200 (some [1, 2, 3]))
        [⟨"a", "Instance", none, some [1, 2, 3]⟩,
          ⟨"b", "Instance", none, some [1, 2]⟩]
        (fun _ _ => 0) (fun _ => "")
        (some (JVal.obj [("query", JVal.str "q")]))).status = 500 := by
  constructor
  · exact List.Mem.tail _ (List.Mem.head _)
  · rfl

/-- Claim C2 (amended): the line-200 filter keeps exactly the records whose
embedding column is a non-empty list, regardless of its length; missing
(`NULL`) and empty-array embeddings are excluded.  Length mismatches are not
filtered — they abort the request at the similarity computation instead (see
the counterexample). -/
theorem claim_C2_amended (rows : List Row) (r : Row) (hr : r ∈ rows) :
    rowToEntity r ∈ valid_entities rows ↔ ∃ l, r.emb = some l ∧ l ≠ [] := by
  constructor
  · intro h
    have hp := (List.mem_filter.mp h).2
    cases hemb : r.emb with
    | none => simp [hasUsableEmbedding, rowToEntity, hemb] at hp
    | some l =>
      cases hl : l.isEmpty with
      | true => simp [hasUsableEmbedding, rowToEntity, hemb, hl] at hp
      | false =>
        exact ⟨l, rfl, fun hnil => by rw [hnil] at hl; exact absurd hl (by simp)⟩
  · rintro ⟨l, hemb, hlne⟩
    have hl : l.isEmpty = false := by
      cases l with
      | nil => exact absurd rfl hlne
      | cons a as => rfl
    refine List.mem_filter.mpr ⟨List.mem_map.mpr ⟨r, hr, rfl⟩, ?_⟩
    simp [hasUsableEmbedding, rowToEntity, hemb, hl]

/-- Witness for the amended claim C2: a record with a non-empty embedding
of length 2 is in the ranked pool. -/
theorem claim_C2_amended_witness :
    rowToEntity ⟨"a", "Instance", none, some [(1 : ℚ), 2]⟩ ∈
        valid_entities [⟨"a", "Instance", none, some [(1 : ℚ), 2]⟩] ↔
      ∃ l, (some [(1 : ℚ), 2] : Option (List ℚ)) = some l ∧ l ≠ [] :=
  claim_C2_amended [⟨"a", "Instance", none, some [(1 : ℚ), 2]⟩] _
    (List.Mem.head _)

/-! ### Claim C4 -/

/-- Claim C4: when the candidate fetch yields zero rows, or filtering
leaves zero entities with usable embeddings (`valid_entities rows = []`
covers both), the pipeline returns HTTP 200 with message
"No relevant information found." and makes zero generation calls. -/
theorem claim_C4 (embedSvc : JVal → EmbedOutcome) (rows : List Row)
    (score : List ℚ → List ℚ → ℚ) (llm : String → String)
    (rj query : JVal) (qe : List ℚ)
    (htr : rj.truthy = true)
    (hcont : pyContains rj "query" = Except.ok true)
    (hget : pyGetItem rj "query" = Except.ok query)
    (hemb : get_query_embedding true (embedSvc query) = some qe)
    (hvalid : valid_entities rows = []) :
    query_engine true embedSvc rows score llm (some rj) =
      ⟨200, msgBody "No relevant information found.", 1, some query, 1, 0⟩ := by
  simp only [query_engine, htr, if_true, hcont, hget, hemb, hvalid,
    List.isEmpty_nil]

/-- Witness for claim C4 (the spec's Scenario D): the store returns one
entity with a `NULL` embedding; the response is a 200 with the
no-relevant-information message and zero generation calls. -/
theorem claim_C4_witness :
    query_engine true (fun _ => EmbedOutcome.response 200 (some [1]))
        [⟨"e1", "Community", none, none⟩] (fun _ _ => 0) (fun _ => "")
        (some (JVal.obj [("query", JVal.str "q")])) =
      ⟨200, msgBody "No relevant information found.", 1,
        some (JVal.str "q"), 1, 0⟩ :=
  claim_C4 _ _ _ _ _ _ _ rfl rfl rfl rfl rfl

/-! ### Claim C5 -/

/-- Claim C5 counterexample: the claim says the body is exactly
`{"message": "No relevant information found to answer your query."}`, but
the string written by main.py line 257 carries a trailing newline, so the
body differs from the claimed one. -/
theorem claim_C5_counterexample :
    (finalStage (fun _ => "") (JVal.str "q") []).1 ≠
      msgBody "No relevant information found to answer your query." := by
  intro h
  simp only [finalStage, msgBody, noAnswersMsg, JVal.obj.injEq,
    List.cons.injEq, Prod.mk.injEq, JVal.str.injEq, and_true,
    true_and] at h
  exact absurd h (by decide)

/-- Claim C5 (amended): when no partial answers were produced, the
synthesis stage returns HTTP 200 with body `{"message": "No relevant
information found to answer your query.\n"}` (trailing newline included)
and the synthesis collaborator is invoked zero times. -/
theorem claim_C5_amended (llm : String → String) (query : JVal)
    (answers : List String) (h : answers = []) :
    finalStage llm query answers =
      (msgBody "No relevant information found to answer your query.\n",
        200, 0) := by
  subst h; rfl

/-- Witness for the amended claim C5 at a concrete empty answer list. -/
theorem claim_C5_amended_witness :
    finalStage (fun _ => "x") (JVal.str "q") [] =
      (msgBody "No relevant information found to answer your query.\n",
        200, 0) :=
  claim_C5_amended _ _ _ rfl

/-! ### Claim C6 -/

/-- Claim C6 counterexample: the claim's chain "name, else description,
else serialized properties" (the spec's "else" covers absent *or* empty,
as its Community rule states) predicts `"d"` for an Instance with an empty
`name` and description `"d"`; the code's `get("name", get("description",
""))` (main.py line 238) only falls back to description when the `name`
key is absent, so a present-but-empty name jumps straight to
`json.dumps(properties)`. -/
theorem claim_C6_counterexample :
    resolve_summary "Instance"
        [("name", JVal.str ""), ("description", JVal.str "d")] ≠
      JVal.str "d" ∧
    resolve_summary "Instance"
        [("name", JVal.str ""), ("description", JVal.str "d")] =
      JVal.str "\x7b\"name\": \"\", \"description\": \"d\"\x7d" := by
  constructor
  · intro h
    injection h with h'
    exact absurd h' (by decide)
  · rfl

/-- Claim C6 (amended): for an `Instance`, the resolved summary is
`properties["name"]` when the `name` key is present with a truthy value;
when `name` is absent it is `properties["description"]` if that is present
and truthy; whenever the extracted value is falsy (in particular when both
keys are missing) it is the serialized properties map, which is never the
empty string — the resolved summary is always truthy. -/
theorem claim_C6_amended (props : List (String × JVal)) :
    (∀ kv, props.find? (fun x => x.1 == "name") = some kv →
      kv.2.truthy = true → resolve_summary "Instance" props = kv.2) ∧
    (props.find? (fun x => x.1 == "name") = none →
      ∀ kv, props.find? (fun x => x.1 == "description") = some kv →
        kv.2.truthy = true → resolve_summary "Instance" props = kv.2) ∧
    ((dictGet props "name" (dictGet props "description" (JVal.str ""))).truthy
        = false →
      resolve_summary "Instance" props = JVal.str (jsonDumps (JVal.obj props))
        ∧ jsonDumps (JVal.obj props) ≠ "") ∧
    (resolve_summary "Instance" props).truthy = true := by
  refine ⟨?_, ?_, ?_, resolve_summary_truthy _ _⟩
  · intro kv hfind htruthy
    simp [resolve_summary, dictGet, hfind, htruthy]
  · intro hname kv hfind htruthy
    simp [resolve_summary, dictGet, hname, hfind, htruthy]
  · intro hfalsy
    refine ⟨?_, jsonDumps_obj_ne_empty props⟩
    simp [resolve_summary, hfalsy]

/-- Witness for the amended claim C6: a present truthy `name` resolves to
itself. -/
theorem claim_C6_amended_witness :
    resolve_summary "Instance" [("name", JVal.str "Bob")] =
      JVal.str "Bob" :=
  (claim_C6_amended [("name", JVal.str "Bob")]).1 ("name", JVal.str "Bob")
    rfl rfl

/-! ### Claim C7 -/

/-- Claim C7: whenever the embedding collaborator fails — request
exception, non-200 status, or an absent/non-list/empty `embedding` field —
the pipeline returns HTTP 500 with body
`{"error": "Failed to generate query embedding"}` and performs zero
storage fetches and zero generation calls. -/
theorem claim_C7 (embedSvc : JVal → EmbedOutcome) (rows : List Row)
    (score : List ℚ → List ℚ → ℚ) (llm : String → String)
    (rj query : JVal)
    (htr : rj.truthy = true)
    (hcont : pyContains rj "query" = Except.ok true)
    (hget : pyGetItem rj "query" = Except.ok query)
    (hfail : embedFails (embedSvc query)) :
    query_engine true embedSvc rows score llm (some rj) =
      ⟨500, errBody "Failed to generate query embedding", 1, some query,
        0, 0⟩ := by
  have hemb : get_query_embedding true (embedSvc query) = none := by
    cases hout : embedSvc query with
    | netError => rfl
    | response st emb =>
      rw [hout] at hfail
      unfold embedFails at hfail
      unfold get_query_embedding
      rcases hfail with h | h | h
      · simp [h]
      · subst h
        by_cases h200 : st = 200 <;> simp [h200]
      · subst h
        by_cases h200 : st = 200 <;> simp [h200]
  simp only [query_engine, htr, if_true, hcont, hget, hemb]

/-- Witness for claim C7 (the spec's Scenario C): the embedding service
answers HTTP 500; the response is the embedding-failure 500 with zero
fetches and zero generation calls. -/
theorem claim_C7_witness :
    query_engine true (fun _ => EmbedOutcome.response 500 none) []
        (fun _ _ => 0) (fun _ => "")
        (some (JVal.obj [("query", JVal.str "q")])) =
      ⟨500, errBody "Failed to generate query embedding", 1,
        some (JVal.str "q"), 0, 0⟩ :=
  claim_C7 _ _ _ _ _ _ rfl rfl rfl (Or.inl (by decide))

/-! ### Claim C8 -/

/-- Claim C8 counterexample: the JSON body `["query"]` is valid JSON that
contains no field `query` at all (an array has no fields), so the claim
predicts a 400; but it passes the line-135 check — Python's `in` finds the
string *element* — and the subsequent subscript `request_json["query"]`
raises `TypeError`, so the actual response is the 500 internal-error
handler, with the claimed 400 never produced. -/
theorem claim_C8_counterexample :
    (query_engine true (fun _ => EmbedOutcome.netError) [] (fun _ _ => 0)
        (fun _ => "") (some (JVal.arr [JVal.str "query"]))).status = 500 :=
  rfl

/-- Claim C8 (amended): for every request whose body is missing, not valid
JSON, or parses to a JSON *object* without the key `query` (an empty
object is also rejected by the truthiness test), the response is the 400
Bad Request error and zero collaborator calls are made. -/
theorem claim_C8_amended (urlSet : Bool) (embedSvc : JVal → EmbedOutcome)
    (rows : List Row) (score : List ℚ → List ℚ → ℚ)
    (llm : String → String) (body : Option JVal)
    (h : body = none ∨ ∃ kvs, body = some (JVal.obj kvs) ∧
      ∀ kv ∈ kvs, kv.1 ≠ "query") :
    query_engine urlSet embedSvc rows score llm body =
      ⟨400, errBody badRequestMsg, 0, none, 0, 0⟩ := by
  rcases h with rfl | ⟨kvs, rfl, hall⟩
  · rfl
  · cases kvs with
    | nil => rfl
    | cons kv rest =>
      have hany : (kv :: rest).any (fun x => x.1 == "query") = false := by
        rw [Bool.eq_false_iff]
        intro hco
        obtain ⟨x, hx, hxq⟩ := List.any_eq_true.mp hco
        exact hall x hx (by simpa using hxq)
      have hc : pyContains (JVal.obj (kv :: rest)) "query" =
          Except.ok false := by
        simp only [pyContains, Except.ok.injEq]
        exact hany
      simp only [query_engine, JVal.truthy, List.isEmpty_cons,
        Bool.not_false, if_true, hc]

/-- Witness for the amended claim C8 (the spec's Scenario B): the body
`{}` yields a 400 with zero collaborator calls. -/
theorem claim_C8_amended_witness :
    query_engine true (fun _ => EmbedOutcome.netError) [] (fun _ _ => 0)
        (fun _ => "") (some (JVal.obj [])) =
      ⟨400, errBody badRequestMsg, 0, none, 0, 0⟩ :=
  claim_C8_amended true _ [] _ _ _ (Or.inr ⟨[], rfl, by simp⟩)

/-! ### Claim C9 -/

/-- Any request that passes validation produces a trace with exactly one
embedding call carrying the extracted query value, and a non-400 status. -/
theorem queryEngine_shape (embedSvc : JVal → EmbedOutcome) (rows : List Row)
    (score : List ℚ → List ℚ → ℚ) (llm : String → String) (rj query : JVal)
    (htr : rj.truthy = true)
    (hcont : pyContains rj "query" = Except.ok true)
    (hget : pyGetItem rj "query" = Except.ok query) :
    ∃ st bd fc gc, query_engine true embedSvc rows score llm (some rj) =
      ⟨st, bd, 1, some query, fc, gc⟩ ∧ st ≠ 400 := by
  cases hge : get_query_embedding true (embedSvc query) with
  | none =>
    refine ⟨500, errBody "Failed to generate query embedding", 0, 0, ?_,
      by decide⟩
    simp only [query_engine, htr, if_true, hcont, hget, hge]
  | some qe =>
    cases hv1 : (valid_entities rows).isEmpty with
    | true =>
      refine ⟨200, msgBody "No relevant information found.", 1, 0, ?_,
        by decide⟩
      simp only [query_engine, htr, if_true, hcont, hget, hge, hv1]
    | false =>
      cases hall : (valid_entities rows).all
          (fun e => embDim e == qe.length) with
      | false =>
        refine ⟨500, errBody "Internal Server Error", 1, 0, ?_, by decide⟩
        simp only [query_engine, htr, if_true, hcont, hget, hge, hv1, hall]
        rfl
      | true =>
        refine ⟨(finalStage llm query (answersLoop llm query
            ((top_n_indices ((valid_entities rows).map
              (fun e => score qe (e.embedding.getD [])))).filterMap
              (fun i => (valid_entities rows)[i]?)))).2.1,
          (finalStage llm query (answersLoop llm query
            ((top_n_indices ((valid_entities rows).map
              (fun e => score qe (e.embedding.getD [])))).filterMap
              (fun i => (valid_entities rows)[i]?)))).1, 1,
          (answersLoop llm query
            ((top_n_indices ((valid_entities rows).map
              (fun e => score qe (e.embedding.getD [])))).filterMap
              (fun i => (valid_entities rows)[i]?))).length +
          (finalStage llm query (answersLoop llm query
            ((top_n_indices ((valid_entities rows).map
              (fun e => score qe (e.embedding.getD [])))).filterMap
              (fun i => (valid_entities rows)[i]?)))).2.2, ?_, ?_⟩
        · simp only [query_engine, htr, if_true, hcont, hget, hge, hv1,
            hall]
          rfl
        · rw [finalStage_status]
          decide

/-- Claim C9: request validation only tests membership of the key
`query`; any JSON object containing that key — whatever its value, even
`""` or a non-string — passes the 400 check, and the stored value is
forwarded unchanged as the argument of the embedding collaborator. -/
theorem claim_C9 (embedSvc : JVal → EmbedOutcome) (rows : List Row)
    (score : List ℚ → List ℚ → ℚ) (llm : String → String)
    (kvs : List (String × JVal)) (v : JVal)
    (hget : pyGetItem (JVal.obj kvs) "query" = Except.ok v) :
    (query_engine true embedSvc rows score llm
        (some (JVal.obj kvs))).status ≠ 400 ∧
    (query_engine true embedSvc rows score llm
        (some (JVal.obj kvs))).embedCalls = 1 ∧
    (query_engine true embedSvc rows score llm
        (some (JVal.obj kvs))).embedArg = some v := by
  have hfind : ∃ kv, kvs.find? (fun x => x.1 == "query") = some kv ∧
      kv.2 = v := by
    cases hf : kvs.find? (fun x => x.1 == "query") with
    | some kv =>
      refine ⟨kv, rfl, ?_⟩
      simp only [pyGetItem, hf, Except.ok.injEq] at hget
      exact hget
    | none =>
      simp only [pyGetItem, hf] at hget
      exact Except.noConfusion hget
  obtain ⟨kv, hf, hv⟩ := hfind
  have hmem : kv ∈ kvs := List.mem_of_find?_eq_some hf
  have hp : (kv.1 == "query") = true := by
    have h1 := List.find?_some hf
    simpa using h1
  have htr : (JVal.obj kvs).truthy = true := by
    cases kvs with
    | nil => exact absurd hmem (List.not_mem_nil kv)
    | cons a l => rfl
  have hcont : pyContains (JVal.obj kvs) "query" = Except.ok true := by
    simp only [pyContains, Except.ok.injEq]
    exact List.any_eq_true.mpr ⟨kv, hmem, hp⟩
  subst hv
  obtain ⟨st, bd, fc, gc, heq, hst⟩ :=
    queryEngine_shape embedSvc rows score llm (JVal.obj kvs) kv.2 htr hcont
      hget
  rw [heq]
  exact ⟨hst, rfl, rfl⟩

/-- Witness for claim C9: the body `{"query": ""}` passes validation and
the empty string is forwarded to the embedding collaborator. -/
theorem claim_C9_witness :
    (query_engine true (fun _ => EmbedOutcome.netError) [] (fun _ _ => 0)
        (fun _ => "") (some (JVal.obj [("query", JVal.str "")]))).status ≠
      400 ∧
    (query_engine true (fun _ => EmbedOutcome.netError) [] (fun _ _ => 0)
        (fun _ => "") (some (JVal.obj [("query",
          JVal.str "")]))).embedCalls = 1 ∧
    (query_engine true (fun _ => EmbedOutcome.netError) [] (fun _ _ => 0)
        (fun _ => "") (some (JVal.obj [("query",
          JVal.str "")]))).embedArg = some (JVal.str "") :=
  claim_C9 _ _ _ _ [("query", JVal.str "")] (JVal.str "") rfl

/-! ### Claim C10 -/

/-- Claim C10: `json.dumps` of the properties map is never empty, so every
top-K entity's resolved summary is truthy: the skip-unusable `continue` of
main.py line 248 is unreachable, each of the `min 5 |valid|` top entities
yields exactly one generation call plus one synthesis call, and whenever at
least one candidate has a valid embedding (and the dimensions agree so no
collaborator call fails) the response is the 200 answer object — never the
"no relevant information to answer your query" short-circuit. -/
theorem claim_C10 (embedSvc : JVal → EmbedOutcome) (rows : List Row)
    (score : List ℚ → List ℚ → ℚ) (llm : String → String)
    (rj query : JVal) (qe : List ℚ)
    (htr : rj.truthy = true)
    (hcont : pyContains rj "query" = Except.ok true)
    (hget : pyGetItem rj "query" = Except.ok query)
    (hemb : get_query_embedding true (embedSvc query) = some qe)
    (hvne : valid_entities rows ≠ [])
    (hdims : (valid_entities rows).all (fun e => embDim e == qe.length)
      = true) :
    ∃ a, query_engine true embedSvc rows score llm (some rj) =
      ⟨200, JVal.obj [("answer", JVal.str a)], 1, some query, 1,
        min 5 (valid_entities rows).length + 1⟩ := by
  have hpos : 0 < (valid_entities rows).length := List.length_pos.mpr hvne
  have hvfalse : (valid_entities rows).isEmpty = false := by
    cases hval : valid_entities rows with
    | nil => exact absurd hval hvne
    | cons a l => rfl
  have key : ∀ T : List Entity,
      T.length = min 5 (valid_entities rows).length →
      ∃ a, (⟨(finalStage llm query (answersLoop llm query T)).2.1,
          (finalStage llm query (answersLoop llm query T)).1, 1, some query,
          1, (answersLoop llm query T).length +
            (finalStage llm query (answersLoop llm query T)).2.2⟩ : Trace) =
        ⟨200, JVal.obj [("answer", JVal.str a)], 1, some query, 1,
          min 5 (valid_entities rows).length + 1⟩ := by
    intro T hTlen
    have hAnsLen : (answersLoop llm query T).length =
        min 5 (valid_entities rows).length := by
      rw [answersLoop_length, hTlen]
    have hne : answersLoop llm query T ≠ [] := by
      intro h0
      rw [h0] at hAnsLen
      have h1 := Nat.min_eq_zero_iff.mp hAnsLen.symm
      omega
    obtain ⟨a, rest, hcase⟩ := List.exists_cons_of_ne_nil hne
    rw [hcase] at hAnsLen ⊢
    refine ⟨llm (finalPrompt (pyStr query)
      (String.intercalate "\n" (a :: rest))), ?_⟩
    simp only [finalStage]
    rw [hAnsLen]
  simp only [query_engine, htr, if_true, hcont, hget, hemb, hvfalse, hdims]
  refine key ((top_n_indices ((valid_entities rows).map
      (fun e => score qe (e.embedding.getD [])))).filterMap
      (fun i => (valid_entities rows)[i]?)) ?_
  rw [length_filterMap_get]
  · rw [length_top_n_indices, List.length_map]
  · intro i hi
    have h2 := mem_top_n_indices_lt _ i hi
    rwa [List.length_map] at h2

/-- Witness for claim C10: one community with a summary and a matching
1-dimensional embedding yields the 200 answer response with
`min 5 1 + 1 = 2` generation calls. -/
theorem claim_C10_witness :
    ∃ a, query_engine true (fun _ => EmbedOutcome.response 200 (some [1]))
        [⟨"e1", "Community", some [("summary", JVal.str "s")], some [1]⟩]
        (fun _ _ => 0) (fun _ => "ans")
        (some (JVal.obj [("query", JVal.str "q")])) =
      ⟨200, JVal.obj [("answer", JVal.str a)], 1, some (JVal.str "q"), 1,
        min 5 (valid_entities [⟨"e1", "Community",
          some [("summary", JVal.str "s")], some [1]⟩]).length + 1⟩ :=
  claim_C10 _ _ _ _ _ _ _ rfl rfl rfl rfl
    (by simp [valid_entities, rowToEntity, hasUsableEmbedding]) rfl
